import Mathlib

/-!
Verification of the LLMTrigger scheduling plugin (src/main.py).

Instants are modelled as natural numbers counting minutes since
1970-01-01 00:00 (the cron evaluator works at minute granularity).
Raw configuration strings are Lean strings; splitting on the literal
separator is performed on the character list.
-/

/-- Splits a character list on every occurrence of the two-character
separator made of two consecutive colons, scanning left to right
(the semantics of the Python split on a two-character separator). -/
def splitCols : List Char → List (List Char)
  | [] => [[]]
  | ':' :: ':' :: rest => [] :: splitCols rest
  | c :: rest =>
    match splitCols rest with
    | [] => [[c]]
    | g :: gs => (c :: g) :: gs

/-- The Python expression config_str.split on the double-colon separator. -/
def splitSep (s : String) : List String :=
  (splitCols s.toList).map (fun cs => String.mk cs)

/-- The Python double-colon join over a list of segments. -/
def joinSep (parts : List String) : String :=
  String.intercalate "::" parts

/-- Splits a character list on a single separator character. -/
def splitChar (sep : Char) : List Char → List (List Char)
  | [] => [[]]
  | c :: rest =>
    if c = sep then [] :: splitChar sep rest
    else
      match splitChar sep rest with
      | [] => [[c]]
      | g :: gs => (c :: g) :: gs

def parseNatAux : List Char → Nat → Option Nat
  | [], acc => some acc
  | c :: rest, acc =>
    if c.isDigit then parseNatAux rest (acc * 10 + (c.toNat - 48)) else none

/-- Parses a nonempty all-digit character list as a natural number. -/
def parseNatChars (cs : List Char) : Option Nat :=
  if cs.isEmpty then none else parseNatAux cs 0

/-- Modelled from the spec: one atom of a cron field (the croniter
library that evaluates cron expressions in the source is an external
dependency, so the evaluator is modelled from the specification:
star, step, single value, inclusive range). -/
inductive CronAtom where
  | all : CronAtom
  | step (n : Nat) : CronAtom
  | single (v : Nat) : CronAtom
  | range (a b : Nat) : CronAtom
  deriving DecidableEq

/-- Modelled from the spec: one of the five cron fields, a comma list
of atoms; the star flag records whether the field was literally a star
(needed for the day-of-month and day-of-week combination rule). -/
structure CronField where
  atoms : List CronAtom
  star : Bool
  deriving DecidableEq

/-- Modelled from the spec: a parsed 5-field cron expression
(minute, hour, day-of-month, month, day-of-week). -/
structure CronExpr where
  minute : CronField
  hour : CronField
  dom : CronField
  month : CronField
  dow : CronField
  deriving DecidableEq

/-- Parses one atom of a cron field, rejecting out-of-range or
malformed tokens (the ParseError of the spec). -/
def parseAtom (lo hi : Nat) (cs : List Char) : Option CronAtom :=
  match cs with
  | ['*'] => some CronAtom.all
  | '*' :: '/' :: rest =>
    match parseNatChars rest with
    | some n => if 1 ≤ n then some (CronAtom.step n) else none
    | none => none
  | _ =>
    match splitChar '-' cs with
    | [a] =>
      match parseNatChars a with
      | some v => if lo ≤ v ∧ v ≤ hi then some (CronAtom.single v) else none
      | none => none
    | [a, b] =>
      match parseNatChars a, parseNatChars b with
      | some x, some y =>
        if lo ≤ x ∧ x ≤ y ∧ y ≤ hi then some (CronAtom.range x y) else none
      | _, _ => none
    | _ => none

/-- Parses one cron field: a comma list of atoms with per-field bounds. -/
def parseField (lo hi : Nat) (cs : List Char) : Option CronField :=
  match (splitChar ',' cs).mapM (parseAtom lo hi) with
  | some atoms => some { atoms := atoms, star := cs == ['*'] }
  | none => none

/-- Parses a 5-field cron expression string; fails on a wrong field
count or any malformed field (the ParseError of the spec).
Field bounds: minute 0-59, hour 0-23, day-of-month 1-31, month 1-12,
day-of-week 0-6 with 0 meaning Sunday. -/
def parseCron (s : String) : Option CronExpr :=
  match (splitChar ' ' s.toList).filter (fun t => !t.isEmpty) with
  | [f1, f2, f3, f4, f5] =>
    match parseField 0 59 f1, parseField 0 23 f2, parseField 1 31 f3,
          parseField 1 12 f4, parseField 0 6 f5 with
    | some mi, some h, some dm, some mo, some dw =>
      some { minute := mi, hour := h, dom := dm, month := mo, dow := dw }
    | _, _, _, _, _ => none
  | _ => none

/-- Whether a field value satisfies one atom; lo is the lower bound
of the field (steps count from it). -/
def matchesAtom (lo v : Nat) : CronAtom → Bool
  | CronAtom.all => true
  | CronAtom.step n => (v - lo) % n == 0
  | CronAtom.single x => v == x
  | CronAtom.range a b => decide (a ≤ v ∧ v ≤ b)

/-- Whether a field value satisfies a cron field (any atom matches). -/
def fieldMatches (lo : Nat) (f : CronField) (v : Nat) : Bool :=
  f.atoms.any (matchesAtom lo v)

/-- Civil date (year, month, day) from a day count whose day 0 is
March 1 of year 0 (proleptic Gregorian calendar). -/
def civilFromDays (z : Nat) : Nat × Nat × Nat :=
  let era := z / 146097
  let doe := z % 146097
  let yoe := (doe - doe / 1460 + doe / 36524 - doe / 146096) / 365
  let doy := doe - (365 * yoe + yoe / 4 - yoe / 100)
  let mp := (5 * doy + 2) / 153
  let d := doy - (153 * mp + 2) / 5 + 1
  let m := if mp < 10 then mp + 3 else mp - 9
  (yoe + era * 400 + (if m ≤ 2 then 1 else 0), m, d)

def minuteOf (t : Nat) : Nat := t % 60

def hourOf (t : Nat) : Nat := t / 60 % 24

def daysOf (t : Nat) : Nat := t / 1440

/-- Day of week, 0 = Sunday (1970-01-01 was a Thursday). -/
def weekdayOf (t : Nat) : Nat := (daysOf t + 4) % 7

def monthOf (t : Nat) : Nat := (civilFromDays (daysOf t + 719468)).2.1

def domOf (t : Nat) : Nat := (civilFromDays (daysOf t + 719468)).2.2

/-- Modelled from the spec: whether the calendar fields of an instant
satisfy every field of the expression, with day-of-month and
day-of-week combined with OR semantics when both are restricted
(standard cron behavior). -/
def cronMatches (e : CronExpr) (t : Nat) : Bool :=
  fieldMatches 0 e.minute (minuteOf t) &&
  fieldMatches 0 e.hour (hourOf t) &&
  fieldMatches 1 e.month (monthOf t) &&
  (if !e.dom.star && !e.dow.star then
     fieldMatches 1 e.dom (domOf t) || fieldMatches 0 e.dow (weekdayOf t)
   else
     fieldMatches 1 e.dom (domOf t) && fieldMatches 0 e.dow (weekdayOf t))

/-- Bounded search for the first matching instant strictly after t. -/
def searchNext (e : CronExpr) : Nat → Nat → Option Nat
  | _, 0 => none
  | t, Nat.succ fuel =>
    if cronMatches e (t + 1) then some (t + 1) else searchNext e (t + 1) fuel

/-- Search bound: four years of minutes. -/
def cronFuel : Nat := 2103840

/-- Modelled from the spec: the earliest instant strictly greater than
the reference that satisfies the expression (none when no instant
within the search bound matches, the failure case of the evaluator). -/
def cronNext (e : CronExpr) (t : Nat) : Option Nat :=
  searchNext e t cronFuel

/-!
Trigger records and configuration parsing (src/main.py, _parse_configs).
A trigger config mirrors the Python dict: the delivery category (group
or private), the platform, the target, the provider name, the raw cron
expression string, the parsed cron object, the schedule state and the
prompt text.
-/

/-- One trigger record, as built by _parse_configs. -/
structure TriggerConfig where
  type_ : String
  platform : String
  target_id : String
  provider : String
  cron_expression : String
  cron : CronExpr
  next_run : Nat
  last_run : Option Nat
  message : String
  deriving DecidableEq

/-- Log events of the configuration parser, mirroring the logger calls
in _parse_configs: a format warning for a string with fewer than five
segments, an error for a cron expression the evaluator rejects, an
info entry for an accepted trigger. -/
inductive LogEvent where
  | format_error (s : String)
  | cron_error (expr : String)
  | added (platform target : String)
  deriving DecidableEq

/-- Parses one raw trigger string, as one iteration of the loops in
_parse_configs: split on the double colon, require at least five
segments, take the first four as platform, target, provider and cron
expression, rejoin the rest as the message, validate the cron
expression by computing its next fire time from now. -/
def parse_one (ty : String) (now : Nat) (config_str : String) :
    Option TriggerConfig × List LogEvent :=
  let parts := splitSep config_str
  if parts.length ≥ 5 then
    let platform_name := parts.getD 0 ""
    let target := parts.getD 1 ""
    let provider_name := parts.getD 2 ""
    let cron_expr := parts.getD 3 ""
    let message_content := joinSep (parts.drop 4)
    match parseCron cron_expr with
    | some cr =>
      match cronNext cr now with
      | some next_time =>
        (some { type_ := ty, platform := platform_name, target_id := target,
                provider := provider_name, cron_expression := cron_expr,
                cron := cr, next_run := next_time, last_run := none,
                message := message_content },
         [LogEvent.added platform_name target])
      | none => (none, [LogEvent.cron_error cron_expr])
    | none => (none, [LogEvent.cron_error cron_expr])
  else (none, [LogEvent.format_error config_str])

/-- One of the two parsing loops of _parse_configs: each raw string is
processed independently, accepted strings append one trigger record,
rejected strings only log. -/
def parse_list (ty : String) (now : Nat) : List String →
    List TriggerConfig × List LogEvent
  | [] => ([], [])
  | s :: rest =>
    let r := parse_one ty now s
    let rs := parse_list ty now rest
    (r.1.toList ++ rs.1, r.2 ++ rs.2)

/-- The whole of _parse_configs: the group list then the friend list,
with the category determined by the originating list. -/
def parse_configs (group_map friend_map : List String) (now : Nat) :
    List TriggerConfig × List LogEvent :=
  let g := parse_list "group" now group_map
  let f := parse_list "private" now friend_map
  (g.1 ++ f.1, g.2 ++ f.2)

/-!
Trigger execution (src/main.py, _execute_trigger). The provider
registry and the message delivery channel are the external
collaborators; they are parameters of the embedding. The body of the
try block is a fallible computation returning the observable actions;
the enclosing except block catches any error and only logs it, so the
executor as a whole is a total function.
-/

/-- The response object of the provider: an optional result chain. -/
structure LLMResponse where
  result_chain : Option (List String)
  deriving DecidableEq

/-- One resolved provider: its text_chat call, which may raise. -/
structure ProviderSpec where
  text_chat : String → List String → String → Except String (Option LLMResponse)

/-- The external collaborators of the executor: provider lookup by
name and message delivery, which may raise. -/
structure ExecEnv where
  get_provider_by_id : String → Option ProviderSpec
  send_message : String → List String → Except String Unit

/-- The fixed default system instruction passed to every provider call. -/
def defaultSystemPrompt : String := "你是一个有用的AI助手。"

/-- The unified message origin: platform, a message kind derived from
the trigger category, and the target id, joined with single colons. -/
def unified_msg_origin (cfg : TriggerConfig) : String :=
  if cfg.type_ = "group" then
    cfg.platform ++ ":group_message:" ++ cfg.target_id
  else
    cfg.platform ++ ":private_message:" ++ cfg.target_id

/-- Truthiness of the provider response as tested by the source:
the response is present and its result chain is present. -/
def respTruthy (r : Option LLMResponse) : Bool :=
  match r with
  | some resp => resp.result_chain.isSome
  | none => false

/-- The result chain of a truthy response. -/
def chainOf (r : Option LLMResponse) : List String :=
  match r with
  | some resp => resp.result_chain.getD []
  | none => []

/-- The observable actions of one execution attempt. -/
structure ExecTrace where
  provider_call : Option (String × List String × String)
  sent : Option (String × List String)
  warned_no_provider : Bool
  warned_empty : Bool
  error_logged : Option String
  deriving DecidableEq

/-- The try block of _execute_trigger: resolve the provider (warn and
return on failure), call text_chat with the message, an empty context
and the default system instruction, and if the response is truthy send
its result chain to the unified origin; a raise from text_chat or
send_message escapes as an error. -/
def execute_trigger_body (env : ExecEnv) (cfg : TriggerConfig) :
    Except String ExecTrace :=
  let origin := unified_msg_origin cfg
  match env.get_provider_by_id cfg.provider with
  | none =>
    Except.ok { provider_call := none, sent := none,
                warned_no_provider := true, warned_empty := false,
                error_logged := none }
  | some p =>
    match p.text_chat cfg.message [] defaultSystemPrompt with
    | Except.error e => Except.error e
    | Except.ok resp =>
      if respTruthy resp then
        match env.send_message origin (chainOf resp) with
        | Except.error e => Except.error e
        | Except.ok _ =>
          Except.ok { provider_call := some (cfg.message, [], defaultSystemPrompt),
                      sent := some (origin, chainOf resp),
                      warned_no_provider := false, warned_empty := false,
                      error_logged := none }
      else
        Except.ok { provider_call := some (cfg.message, [], defaultSystemPrompt),
                    sent := none, warned_no_provider := false,
                    warned_empty := true, error_logged := none }

/-- The whole of _execute_trigger: the try body with its except block,
which catches every error and only logs it, so the call always returns
normally. -/
def execute_trigger (env : ExecEnv) (cfg : TriggerConfig) : ExecTrace :=
  match execute_trigger_body env cfg with
  | Except.ok tr => tr
  | Except.error e =>
    { provider_call := none, sent := none, warned_no_provider := false,
      warned_empty := false, error_logged := some e }

/-!
The scheduling scan (src/main.py, _check_and_execute_triggers). The
scan captures the current instant once, then visits every trigger
record in order inside a per-entry try block: if the record is due it
is executed, last_run is set to the current instant, the cron
expression is re-parsed and its next fire time recomputed from the
current instant, and a success notification is sent when enabled. A
raise inside the per-entry block (in this embedding, only the
recomputation can raise, because the executor and the notification
sender catch internally) leaves the mutations made so far in place, logs,
and sends a failure notification when enabled. Entries share no
mutable state, so the scan is the independent per-entry step mapped
over the list.
-/

/-- Scheduler configuration flags read by the scan. -/
structure SchedEnv where
  exec : ExecEnv
  notification_on_success : Bool
  notification_on_failure : Bool

/-- Observable events of one scan: executions (with their traces) and
calls to the notification sender with a message and a level. -/
inductive ScanEvent where
  | executed (tr : ExecTrace)
  | notified (msg level : String)
  deriving DecidableEq

/-- The recomputation of the next run of a trigger inside the scan: the
source re-parses the stored cron expression string and asks for the
next fire time from the current instant; a parse or search failure is
the raise caught by the per-entry except block. -/
def recomputeCron (expr : String) (now : Nat) : Option Nat :=
  match parseCron expr with
  | some e => cronNext e now
  | none => none

def successMsg (cfg : TriggerConfig) : String :=
  "定时LLM触发任务执行成功: " ++ cfg.platform ++ ":" ++ cfg.target_id

def failureMsg : String :=
  "定时LLM触发任务执行失败"

/-- The step of one entry of the scan, with the per-entry try block
flattened: when due, execute (total), set last_run, recompute next_run
from the current instant; on recomputation failure the mutations made
so far stay, an error is logged and a failure notification is sent
when enabled; on success a success notification is sent when enabled. -/
def check_one (env : SchedEnv) (now : Nat) (cfg : TriggerConfig) :
    TriggerConfig × List ScanEvent :=
  if cfg.next_run ≤ now then
    let tr := execute_trigger env.exec cfg
    match recomputeCron cfg.cron_expression now with
    | some nr =>
      ({ cfg with last_run := some now, next_run := nr },
       ScanEvent.executed tr ::
         (if env.notification_on_success then
            [ScanEvent.notified (successMsg cfg) "success"] else []))
    | none =>
      ({ cfg with last_run := some now },
       ScanEvent.executed tr ::
         (if env.notification_on_failure then
            [ScanEvent.notified failureMsg "error"] else []))
  else (cfg, [])

/-- The whole scan: every entry is visited once, in order, with the
same captured current instant; the result is the updated record list
and the per-entry event lists. -/
def check_and_execute_triggers (env : SchedEnv) (now : Nat)
    (cfgs : List TriggerConfig) :
    List TriggerConfig × List (List ScanEvent) :=
  ((cfgs.map (check_one env now)).map Prod.fst,
   (cfgs.map (check_one env now)).map Prod.snd)

/-- Events with level error among the scan events of one entry (the failure
notifications). -/
def errorNotifs (evs : List ScanEvent) : List String :=
  evs.filterMap (fun ev =>
    match ev with
    | ScanEvent.notified m lvl => if lvl = "error" then some m else none
    | _ => none)

/-- Number of executions among the scan events of one entry. -/
def executedCount (evs : List ScanEvent) : Nat :=
  (evs.filter (fun ev =>
    match ev with
    | ScanEvent.executed _ => true
    | _ => false)).length

/-!
The scheduler loop (src/main.py, _scheduler_loop): an unbounded loop
whose body sleeps and scans inside a try block; a cancellation breaks
out of the loop, any other exception is logged, the loop sleeps and
retries. The outcome of each iteration is one event of a script; running
the loop against a finite script returns the index of the iteration
that terminated it, or none when the script ends with the loop still
running.
-/

/-- Outcome of one loop iteration: an explicit cancellation request, an
unexpected exception from the body, or a normal sleep-and-scan. -/
inductive IterEvent where
  | cancel : IterEvent
  | fail (e : String) : IterEvent
  | normal : IterEvent
  deriving DecidableEq

/-- Runs _scheduler_loop against a finite script of iteration
outcomes: a cancellation breaks the loop at its index; a failure or a
normal iteration continues. -/
def scheduler_loop_run : List IterEvent → Option Nat
  | [] => none
  | IterEvent.cancel :: _ => some 0
  | IterEvent.fail _ :: rest => (scheduler_loop_run rest).map (fun i => i + 1)
  | IterEvent.normal :: rest => (scheduler_loop_run rest).map (fun i => i + 1)

/-!
Helper lemmas shared by the claim theorems.
-/

/-- The bounded search only returns instants strictly after its start. -/
theorem searchNext_gt (e : CronExpr) :
    ∀ fuel t r, searchNext e t fuel = some r → t < r := by
  intro fuel
  induction fuel with
  | zero => intro t r h; simp [searchNext] at h
  | succ n ih =>
    intro t r h
    simp only [searchNext] at h
    by_cases hm : cronMatches e (t + 1) = true
    · rw [if_pos hm] at h
      have h' : t + 1 = r := Option.some.inj h
      omega
    · rw [if_neg hm] at h
      have h' := ih (t + 1) r h
      omega

/-- The next fire time is strictly after the reference instant. -/
theorem cronNext_gt (e : CronExpr) (t r : Nat) (h : cronNext e t = some r) :
    t < r :=
  searchNext_gt e cronFuel t r h

/-- The next-run recomputation of the scan yields an instant strictly after
the current instant whenever it succeeds. -/
theorem recomputeCron_gt (s : String) (now nr : Nat)
    (h : recomputeCron s now = some nr) : now < nr := by
  unfold recomputeCron at h
  cases hp : parseCron s with
  | none => rw [hp] at h; exact absurd h (by simp)
  | some e => rw [hp] at h; exact cronNext_gt e now nr h

/-- C3: for every valid 5-field cron expression and every reference
instant R, the computed next fire time is strictly greater than R, and
applying the evaluator again to its own result yields a strictly later
instant (monotonic advancement with no repeats). -/
theorem cron_next_strictly_advances (s : String) (e : CronExpr) (R r r2 : Nat)
    (_hv : parseCron s = some e)
    (h1 : cronNext e R = some r) (h2 : cronNext e r = some r2) :
    R < r ∧ r < r2 :=
  ⟨cronNext_gt e R r h1, cronNext_gt e r r2 h2⟩

/-- The parsed form of the expression with a minute step of five and
every other field a star. -/
def cron5 : CronExpr :=
  { minute := { atoms := [CronAtom.step 5], star := false },
    hour := { atoms := [CronAtom.all], star := true },
    dom := { atoms := [CronAtom.all], star := true },
    month := { atoms := [CronAtom.all], star := true },
    dow := { atoms := [CronAtom.all], star := true } }

theorem cron_next_strictly_advances_witness :
    cronNext cron5 0 = some 5 ∧ cronNext cron5 5 = some 10 ∧
    (0 : Nat) < 5 ∧ (5 : Nat) < 10 := by
  refine ⟨by decide, by decide, ?_⟩
  exact cron_next_strictly_advances "*/5 * * * *" cron5 0 5 10
    (by decide) (by decide) (by decide)

/-- C6: the scheduler loop never terminates because of an unexpected
exception in its body: the run of the loop against a script of
iteration outcomes stops exactly at an explicit cancellation, and a
script without a cancellation leaves the loop running. -/
theorem scheduler_loop_only_cancel_terminates (evs : List IterEvent) :
    (∀ i, scheduler_loop_run evs = some i → evs[i]? = some IterEvent.cancel) ∧
    (IterEvent.cancel ∉ evs → scheduler_loop_run evs = none) := by
  induction evs with
  | nil =>
    constructor
    · intro i h; simp [scheduler_loop_run] at h
    · intro _; rfl
  | cons ev rest ih =>
    cases ev with
    | cancel =>
      constructor
      · intro i h
        simp only [scheduler_loop_run, Option.some.injEq] at h
        subst h
        simp
      · intro hmem
        exact absurd (List.mem_cons_self _ _) hmem
    | fail e =>
      constructor
      · intro i h
        simp only [scheduler_loop_run] at h
        cases hr : scheduler_loop_run rest with
        | none => rw [hr] at h; simp at h
        | some j =>
          rw [hr] at h
          simp only [Option.map_some', Option.some.injEq] at h
          subst h
          simpa using ih.1 j hr
      · intro hmem
        have hm' : IterEvent.cancel ∉ rest := fun hx =>
          hmem (List.mem_cons_of_mem _ hx)
        simp [scheduler_loop_run, ih.2 hm']
    | normal =>
      constructor
      · intro i h
        simp only [scheduler_loop_run] at h
        cases hr : scheduler_loop_run rest with
        | none => rw [hr] at h; simp at h
        | some j =>
          rw [hr] at h
          simp only [Option.map_some', Option.some.injEq] at h
          subst h
          simpa using ih.1 j hr
      · intro hmem
        have hm' : IterEvent.cancel ∉ rest := fun hx =>
          hmem (List.mem_cons_of_mem _ hx)
        simp [scheduler_loop_run, ih.2 hm']

theorem scheduler_loop_only_cancel_terminates_witness :
    ([IterEvent.fail "boom", IterEvent.normal, IterEvent.cancel][2]? =
      some IterEvent.cancel) ∧
    scheduler_loop_run [IterEvent.fail "boom", IterEvent.normal] = none :=
  ⟨(scheduler_loop_only_cancel_terminates _).1 2 (by decide),
   (scheduler_loop_only_cancel_terminates _).2 (by decide)⟩

/-!
Concrete fixtures used by the witnesses: a trigger record, and
execution environments whose provider returns an empty result, raises,
returns a chain, or is absent from the registry.
-/

/-- The parsed form of the every-minute expression. -/
def cronStar : CronExpr :=
  { minute := { atoms := [CronAtom.all], star := true },
    hour := { atoms := [CronAtom.all], star := true },
    dom := { atoms := [CronAtom.all], star := true },
    month := { atoms := [CronAtom.all], star := true },
    dow := { atoms := [CronAtom.all], star := true } }

def sampleCfg : TriggerConfig :=
  { type_ := "group", platform := "p1", target_id := "g1",
    provider := "provA", cron_expression := "* * * * *", cron := cronStar,
    next_run := 0, last_run := none, message := "hi" }

/-- A provider whose text_chat returns a response with no result chain. -/
def emptyProvider : ProviderSpec :=
  { text_chat := fun _ _ _ => Except.ok (some { result_chain := none }) }

def emptyEnv : ExecEnv :=
  { get_provider_by_id := fun _ => some emptyProvider,
    send_message := fun _ _ => Except.ok () }

/-- A provider whose text_chat raises. -/
def boomProvider : ProviderSpec :=
  { text_chat := fun _ _ _ => Except.error "boom" }

def boomExecEnv : ExecEnv :=
  { get_provider_by_id := fun _ => some boomProvider,
    send_message := fun _ _ => Except.ok () }

/-- A provider whose text_chat returns a one-element result chain. -/
def okProvider : ProviderSpec :=
  { text_chat := fun _ _ _ => Except.ok (some { result_chain := some ["reply"] }) }

def okEnv : ExecEnv :=
  { get_provider_by_id := fun _ => some okProvider,
    send_message := fun _ _ => Except.ok () }

/-- A registry that resolves no provider name. -/
def noProvEnv : ExecEnv :=
  { get_provider_by_id := fun _ => none,
    send_message := fun _ _ => Except.ok () }

/-- C7: when the resolved provider returns an empty or absent result
payload, the execution attempt makes no delivery call, logs a warning,
and raises nothing (the try body returns normally). -/
theorem empty_result_no_delivery (env : ExecEnv) (cfg : TriggerConfig)
    (p : ProviderSpec) (r : Option LLMResponse)
    (hp : env.get_provider_by_id cfg.provider = some p)
    (hr : p.text_chat cfg.message [] defaultSystemPrompt = Except.ok r)
    (ht : respTruthy r = false) :
    execute_trigger_body env cfg =
      Except.ok { provider_call := some (cfg.message, [], defaultSystemPrompt),
                  sent := none, warned_no_provider := false,
                  warned_empty := true, error_logged := none } := by
  simp [execute_trigger_body, hp, hr, ht]

theorem empty_result_no_delivery_witness :
    execute_trigger_body emptyEnv sampleCfg =
      Except.ok { provider_call := some ("hi", [], defaultSystemPrompt),
                  sent := none, warned_no_provider := false,
                  warned_empty := true, error_logged := none } :=
  empty_result_no_delivery emptyEnv sampleCfg emptyProvider
    (some { result_chain := none }) rfl rfl rfl

/-- C8: when the provider name resolves to nothing, the executor logs
a warning and returns normally, makes no provider call and no delivery
(and, having no notification effect at all, emits no notification). -/
theorem unresolved_provider_skips (env : ExecEnv) (cfg : TriggerConfig)
    (hp : env.get_provider_by_id cfg.provider = none) :
    execute_trigger_body env cfg =
      Except.ok { provider_call := none, sent := none,
                  warned_no_provider := true, warned_empty := false,
                  error_logged := none } ∧
    execute_trigger env cfg =
      { provider_call := none, sent := none,
        warned_no_provider := true, warned_empty := false,
        error_logged := none } := by
  have hb : execute_trigger_body env cfg =
      Except.ok { provider_call := none, sent := none,
                  warned_no_provider := true, warned_empty := false,
                  error_logged := none } := by
    unfold execute_trigger_body
    rw [hp]
  exact ⟨hb, by unfold execute_trigger; rw [hb]⟩

theorem unresolved_provider_skips_witness :
    execute_trigger noProvEnv sampleCfg =
      { provider_call := none, sent := none,
        warned_no_provider := true, warned_empty := false,
        error_logged := none } :=
  (unresolved_provider_skips noProvEnv sampleCfg rfl).2

/-- C9: an executed provider call always receives the prompt of the
trigger, an empty prior-turn context and the fixed default system
instruction, and a delivery goes to the composite address of platform,
a message kind derived from the category (group or private), and the
target id. -/
theorem provider_call_and_address (env : ExecEnv) (cfg : TriggerConfig)
    (p : ProviderSpec) (r : Option LLMResponse)
    (hp : env.get_provider_by_id cfg.provider = some p)
    (hr : p.text_chat cfg.message [] defaultSystemPrompt = Except.ok r)
    (ht : respTruthy r = true)
    (hs : env.send_message (unified_msg_origin cfg) (chainOf r) = Except.ok ()) :
    execute_trigger_body env cfg =
      Except.ok { provider_call := some (cfg.message, [], defaultSystemPrompt),
                  sent := some (unified_msg_origin cfg, chainOf r),
                  warned_no_provider := false, warned_empty := false,
                  error_logged := none } ∧
    (cfg.type_ = "group" →
      unified_msg_origin cfg = cfg.platform ++ ":group_message:" ++ cfg.target_id) ∧
    (cfg.type_ ≠ "group" →
      unified_msg_origin cfg = cfg.platform ++ ":private_message:" ++ cfg.target_id) := by
  refine ⟨?_, ?_, ?_⟩
  · simp [execute_trigger_body, hp, hr, ht, hs]
  · intro hg; unfold unified_msg_origin; rw [if_pos hg]
  · intro hg; unfold unified_msg_origin; rw [if_neg hg]

theorem provider_call_and_address_witness :
    execute_trigger_body okEnv sampleCfg =
      Except.ok { provider_call := some ("hi", [], defaultSystemPrompt),
                  sent := some ("p1:group_message:g1", ["reply"]),
                  warned_no_provider := false, warned_empty := false,
                  error_logged := none } := by
  have h := provider_call_and_address okEnv sampleCfg okProvider
    (some { result_chain := some ["reply"] }) rfl rfl rfl rfl
  exact h.1

/-!
Scan-level claims. The lemma below computes the step of one entry when the
entry is due and the recomputation succeeds.
-/

/-- The step of one due entry: the executor runs (always returning
normally), last_run becomes the scan instant, next_run becomes the
recomputed next fire time, and a success notification is sent exactly
when enabled. -/
theorem check_one_due_some (env : SchedEnv) (now : Nat)
    (cfg : TriggerConfig) (nr : Nat)
    (hdue : cfg.next_run ≤ now)
    (hrc : recomputeCron cfg.cron_expression now = some nr) :
    check_one env now cfg =
      ({ cfg with last_run := some now, next_run := nr },
       ScanEvent.executed (execute_trigger env.exec cfg) ::
         (if env.notification_on_success then
            [ScanEvent.notified (successMsg cfg) "success"] else [])) := by
  simp [check_one, hdue, hrc]

/-- C2: a trigger whose next_run is at or before the scan instant is
executed exactly once by that scan, its last_run becomes the scan
instant, and its next_run becomes the next match of the cron expression
recomputed from the scan instant, a value strictly after it. -/
theorem due_trigger_fires_once_and_advances (env : SchedEnv) (now : Nat)
    (cfgs : List TriggerConfig) (i : Nat) (cfg : TriggerConfig) (nr : Nat)
    (hi : cfgs[i]? = some cfg)
    (hdue : cfg.next_run ≤ now)
    (hrc : recomputeCron cfg.cron_expression now = some nr) :
    (check_and_execute_triggers env now cfgs).1[i]? =
        some { cfg with last_run := some now, next_run := nr } ∧
    now < nr ∧
    ∃ evs, (check_and_execute_triggers env now cfgs).2[i]? = some evs ∧
      executedCount evs = 1 := by
  have hc := check_one_due_some env now cfg nr hdue hrc
  refine ⟨?_, recomputeCron_gt _ _ _ hrc, ?_⟩
  · simp [check_and_execute_triggers, List.getElem?_map, hi, hc]
  · refine ⟨(check_one env now cfg).2, ?_, ?_⟩
    · simp [check_and_execute_triggers, List.getElem?_map, hi]
    · rw [hc]
      cases env.notification_on_success <;> simp [executedCount]

/-- Scheduler fixture: success notifications off, failure on. -/
def schedEnvA : SchedEnv :=
  { exec := okEnv, notification_on_success := false,
    notification_on_failure := true }

theorem due_trigger_fires_once_and_advances_witness :
    (check_and_execute_triggers schedEnvA 100 [sampleCfg]).1[0]? =
        some { sampleCfg with last_run := some 100, next_run := 101 } ∧
    100 < 101 ∧
    ∃ evs, (check_and_execute_triggers schedEnvA 100 [sampleCfg]).2[0]? = some evs ∧
      executedCount evs = 1 :=
  due_trigger_fires_once_and_advances schedEnvA 100 [sampleCfg] 0 sampleCfg 101
    (by decide) (by decide) (by decide)

/-- C10: because the executor catches every exception internally, a
scan that fires a due trigger whose provider call (or delivery) raised
still runs the post-fire success path: last_run and next_run are
updated and, with success notifications enabled, a success
notification is emitted. -/
theorem swallowed_error_still_advances (env : SchedEnv) (now : Nat)
    (cfg : TriggerConfig) (e : String) (nr : Nat)
    (hdue : cfg.next_run ≤ now)
    (herr : execute_trigger_body env.exec cfg = Except.error e)
    (hrc : recomputeCron cfg.cron_expression now = some nr)
    (hsucc : env.notification_on_success = true) :
    check_one env now cfg =
      ({ cfg with last_run := some now, next_run := nr },
       [ScanEvent.executed { provider_call := none, sent := none,
                             warned_no_provider := false, warned_empty := false,
                             error_logged := some e },
        ScanEvent.notified (successMsg cfg) "success"]) := by
  have hex : execute_trigger env.exec cfg =
      { provider_call := none, sent := none, warned_no_provider := false,
        warned_empty := false, error_logged := some e } := by
    unfold execute_trigger
    rw [herr]
  rw [check_one_due_some env now cfg nr hdue hrc, hex, hsucc]
  simp

/-- Scheduler fixture: raising provider, both notifications on. -/
def boomSuccEnv : SchedEnv :=
  { exec := boomExecEnv, notification_on_success := true,
    notification_on_failure := true }

theorem swallowed_error_still_advances_witness :
    check_one boomSuccEnv 100 sampleCfg =
      ({ sampleCfg with last_run := some 100, next_run := 101 },
       [ScanEvent.executed { provider_call := none, sent := none,
                             warned_no_provider := false, warned_empty := false,
                             error_logged := some "boom" },
        ScanEvent.notified (successMsg sampleCfg) "success"]) :=
  swallowed_error_still_advances boomSuccEnv 100 sampleCfg "boom" 101
    (by decide) rfl (by decide) rfl

/-- Scheduler fixture: raising provider, success notifications off,
failure notifications on. -/
def boomFailEnv : SchedEnv :=
  { exec := boomExecEnv, notification_on_success := false,
    notification_on_failure := true }

/-- C1 counterexample: a scan over one due trigger whose provider
invocation raises, with notification_on_failure set, emits no failure
notification at all: its event list holds exactly the execution whose
error was caught and logged inside the executor, and no notified
event. -/
theorem provider_raise_notification_cex :
    boomFailEnv.notification_on_failure = true ∧
    execute_trigger_body boomFailEnv.exec sampleCfg = Except.error "boom" ∧
    (check_and_execute_triggers boomFailEnv 100 [sampleCfg]).2 =
      [[ScanEvent.executed { provider_call := none, sent := none,
                             warned_no_provider := false, warned_empty := false,
                             error_logged := some "boom" }]] := by
  refine ⟨rfl, rfl, ?_⟩
  decide

/-- C1 (amended): for every trigger whose provider invocation raises
during a scan, the scan still completes the due-checks of all
remaining entries of the same cycle, the outcome of each entry independent
of the others; but the exception is caught inside the executor (and
logged in its trace), so no failure notification is emitted there,
whatever the value of notification_on_failure. -/
theorem provider_raise_isolated (env : SchedEnv) (now : Nat)
    (cfgs : List TriggerConfig) (i : Nat) (cfg : TriggerConfig)
    (e : String) (nr : Nat)
    (hi : cfgs[i]? = some cfg)
    (hdue : cfg.next_run ≤ now)
    (herr : execute_trigger_body env.exec cfg = Except.error e)
    (hrc : recomputeCron cfg.cron_expression now = some nr) :
    (check_and_execute_triggers env now cfgs).1.length = cfgs.length ∧
    (∀ j : Nat, (check_and_execute_triggers env now cfgs).1[j]? =
        (cfgs[j]?).map (fun c => (check_one env now c).1)) ∧
    (∃ evs, (check_and_execute_triggers env now cfgs).2[i]? = some evs ∧
      errorNotifs evs = [] ∧
      ScanEvent.executed { provider_call := none, sent := none,
                           warned_no_provider := false, warned_empty := false,
                           error_logged := some e } ∈ evs) := by
  have hex : execute_trigger env.exec cfg =
      { provider_call := none, sent := none, warned_no_provider := false,
        warned_empty := false, error_logged := some e } := by
    unfold execute_trigger
    rw [herr]
  have hc := check_one_due_some env now cfg nr hdue hrc
  refine ⟨by simp [check_and_execute_triggers], ?_, ?_⟩
  · intro j
    simp only [check_and_execute_triggers, List.getElem?_map]
    cases cfgs[j]? <;> rfl
  · refine ⟨(check_one env now cfg).2, ?_, ?_, ?_⟩
    · simp [check_and_execute_triggers, List.getElem?_map, hi]
    · rw [hc]
      cases env.notification_on_success <;>
        simp [errorNotifs, List.filterMap_cons]
    · rw [hc, hex]
      cases env.notification_on_success <;> simp

theorem provider_raise_isolated_witness :
    (check_and_execute_triggers boomFailEnv 100 [sampleCfg]).1.length =
      [sampleCfg].length ∧
    (∀ j : Nat, (check_and_execute_triggers boomFailEnv 100 [sampleCfg]).1[j]? =
        ([sampleCfg][j]?).map (fun c => (check_one boomFailEnv 100 c).1)) ∧
    (∃ evs, (check_and_execute_triggers boomFailEnv 100 [sampleCfg]).2[0]? = some evs ∧
      errorNotifs evs = [] ∧
      ScanEvent.executed { provider_call := none, sent := none,
                           warned_no_provider := false, warned_empty := false,
                           error_logged := some "boom" } ∈ evs) :=
  provider_raise_isolated boomFailEnv 100 [sampleCfg] 0 sampleCfg "boom" 101
    (by decide) (by decide) rfl (by decide)

/-!
Parser claims.
-/

/-- C4: every accepted raw trigger string is split on the double-colon
separator with only the first four separators structural: the first
four segments become platform, target, provider and cron expression,
and the prompt is the rejoining of all remaining segments with the
same separator. -/
theorem parse_one_fields (ty : String) (now : Nat) (s : String)
    (cfg : TriggerConfig) (h : (parse_one ty now s).1 = some cfg) :
    (splitSep s).length ≥ 5 ∧
    cfg.type_ = ty ∧
    cfg.platform = (splitSep s).getD 0 "" ∧
    cfg.target_id = (splitSep s).getD 1 "" ∧
    cfg.provider = (splitSep s).getD 2 "" ∧
    cfg.cron_expression = (splitSep s).getD 3 "" ∧
    cfg.message = joinSep ((splitSep s).drop 4) := by
  simp only [parse_one] at h
  by_cases h5 : (splitSep s).length ≥ 5
  · rw [if_pos h5] at h
    cases hp : parseCron ((splitSep s).getD 3 "") with
    | none => rw [hp] at h; simp at h
    | some cr =>
      rw [hp] at h
      dsimp only at h
      cases hn : cronNext cr now with
      | none => rw [hn] at h; simp at h
      | some nt =>
        rw [hn] at h
        simp only [Option.some.injEq] at h
        subst h
        exact ⟨h5, rfl, rfl, rfl, rfl, rfl, rfl⟩
  · rw [if_neg h5] at h
    simp at h

/-- The concrete raw string of the parsing example in the specification. -/
def c4str : String := "p1::g1::provA::*/5 * * * *::hello::world"

/-- The trigger record the parser builds from that string. -/
def c4cfg : TriggerConfig :=
  { type_ := "group", platform := "p1", target_id := "g1",
    provider := "provA", cron_expression := "*/5 * * * *", cron := cron5,
    next_run := 5, last_run := none, message := "hello::world" }

theorem parse_one_fields_witness :
    (parse_one "group" 0 c4str).1 = some c4cfg ∧
    ((splitSep c4str).length ≥ 5 ∧
     c4cfg.type_ = "group" ∧
     c4cfg.platform = (splitSep c4str).getD 0 "" ∧
     c4cfg.target_id = (splitSep c4str).getD 1 "" ∧
     c4cfg.provider = (splitSep c4str).getD 2 "" ∧
     c4cfg.cron_expression = (splitSep c4str).getD 3 "" ∧
     c4cfg.message = joinSep ((splitSep c4str).drop 4)) :=
  ⟨by decide, parse_one_fields "group" 0 c4str c4cfg (by decide)⟩

/-- C5: a raw string splitting into fewer than five segments produces
no trigger record and only a logged format error, and the list parser
is independent per string: parsing a concatenation of batches yields
the concatenation of their records and of their logs, so a rejected
entry never affects the others. -/
theorem bad_string_skipped_and_independent (ty : String) (now : Nat)
    (s : String) (l1 l2 : List String)
    (h : (splitSep s).length < 5) :
    parse_one ty now s = (none, [LogEvent.format_error s]) ∧
    parse_list ty now (l1 ++ l2) =
      ((parse_list ty now l1).1 ++ (parse_list ty now l2).1,
       (parse_list ty now l1).2 ++ (parse_list ty now l2).2) := by
  constructor
  · simp only [parse_one]
    rw [if_neg (by omega)]
  · induction l1 with
    | nil => rfl
    | cons a rest ih =>
      simp [parse_list, ih, List.append_assoc]

theorem bad_string_skipped_and_independent_witness :
    parse_one "group" 0 "a::b" = (none, [LogEvent.format_error "a::b"]) ∧
    parse_list "group" 0 (["a::b"] ++ [c4str]) =
      ((parse_list "group" 0 ["a::b"]).1 ++ (parse_list "group" 0 [c4str]).1,
       (parse_list "group" 0 ["a::b"]).2 ++ (parse_list "group" 0 [c4str]).2) :=
  bad_string_skipped_and_independent "group" 0 "a::b" ["a::b"] [c4str]
    (by decide)
